import Mathlib

/-!
Formal model of the Burnout Guardian stability-control core and of two
frontend functions (`setupNavigation` and `performCVAnalysis`).

The stability-control pipeline (Baseline Tracker, Instability Detector,
Forecaster, Decision Engine, Resilience Profile / Adaptive Tuner) is
declared in the repository documentation (`backend/services/decision_engine.py`,
`backend/services/forecasting_service.py`, `backend/services/instability_detector.py`
and the model files named in `PROJECT_SUMMARY.md`), but those backend files
are not part of the repository snapshot; the corresponding definitions below
are modelled from the specification text.  The frontend behaviour is embedded
from `frontend/app.js` / the `setupNavigation` listing in `README.md` and from
`frontend/cv_scanner.js`, which are present in the snapshot.
-/

namespace BurnoutGuardian

/-! ## Decision Engine (spec §4.4) -/

/-- The three intervention action types, ordered by severity
(buffer insertion < workload redistribution < manager alert). -/
inductive ActionType
  | bufferInsertion
  | workloadRedistributionSuggestion
  | managerAlert
deriving DecidableEq, Repr

/-- Per-employee adaptive decision thresholds (spec §3 `ResilienceProfile`). -/
structure ResilienceProfile where
  buffer : ℚ
  redistribution : ℚ
  alert : ℚ
deriving DecidableEq, Repr

/-- Default thresholds: buffer 0.60, redistribution 0.75, alert 0.85. -/
def defaultProfile : ResilienceProfile := ⟨3/5, 3/4, 17/20⟩

/-- Modelled from the spec: the Idle-state action rule of the Decision Engine
(`backend/services/decision_engine.py` is absent from the snapshot).
If `risk ≥ alert_threshold` emit `manager_alert`; else if
`risk ≥ redistribution_threshold` emit `workload_redistribution_suggestion`;
else if `risk ≥ buffer_threshold` emit `buffer_insertion`; else no action. -/
def decideAction (p : ResilienceProfile) (risk : ℚ) : Option ActionType :=
  if p.alert ≤ risk then some .managerAlert
  else if p.redistribution ≤ risk then some .workloadRedistributionSuggestion
  else if p.buffer ≤ risk then some .bufferInsertion
  else none

/-- Daily cap on interventions per employee (spec §4.4: at most 3 per day). -/
def dailyCap : Nat := 3

/-- One evaluation cycle's record: the risk is always recorded (it stands for
the `StabilityAssessment` of that cycle), the action is zero-or-one. -/
structure CycleRecord where
  risk : ℚ
  action : Option ActionType
deriving DecidableEq, Repr

/-- Modelled from the spec: the Decision Engine's run over the evaluation
cycles of one calendar day, carrying the daily intervention counter `c`.
While `c < dailyCap` the engine is in Idle and may act; once the cap is
reached it is in Cooling-down for the remainder of the day and suppresses
the action while still recording the risk. -/
def runDay (p : ResilienceProfile) : Nat → List ℚ → List CycleRecord
  | _, [] => []
  | c, r :: rs =>
    if c < dailyCap then
      match decideAction p r with
      | some a => ⟨r, some a⟩ :: runDay p (c + 1) rs
      | none => ⟨r, none⟩ :: runDay p c rs
    else
      ⟨r, none⟩ :: runDay p c rs

/-- One calendar day of cycles, starting with a fresh daily counter. -/
def dayOutputs (p : ResilienceProfile) (risks : List ℚ) : List CycleRecord :=
  runDay p 0 risks

/-- A multi-day run: the daily intervention counter resets at each new
calendar day (spec §3: the profile holds a daily counter with its reset day). -/
def runDays (p : ResilienceProfile) (days : List (List ℚ)) : List (List CycleRecord) :=
  days.map (dayOutputs p)

/-- Number of interventions emitted in a list of cycle records. -/
def emitted (l : List CycleRecord) : Nat :=
  l.countP (fun cy => cy.action.isSome)

theorem emitted_nil : emitted [] = 0 := rfl

theorem emitted_cons (cy : CycleRecord) (l : List CycleRecord) :
    emitted (cy :: l) = emitted l + if cy.action.isSome then 1 else 0 :=
  List.countP_cons _ _ _

theorem emitted_runDay_le (p : ResilienceProfile) :
    ∀ (rs : List ℚ) (c : Nat), emitted (runDay p c rs) ≤ dailyCap - c := by
  intro rs
  induction rs with
  | nil => intro c; simp [runDay, emitted]
  | cons r rs ih =>
    intro c
    by_cases hc : c < dailyCap
    · cases hd : decideAction p r with
      | some a =>
        have h1 := ih (c + 1)
        simp only [runDay, if_pos hc, hd, emitted_cons, Option.isSome_some, if_pos]
        omega
      | none =>
        have h1 := ih c
        simp [runDay, if_pos hc, hd, emitted_cons]
        omega
    · have h1 := ih c
      simp [runDay, if_neg hc, emitted_cons]
      omega

theorem runDay_risks (p : ResilienceProfile) :
    ∀ (rs : List ℚ) (c : Nat), (runDay p c rs).map (fun cy => cy.risk) = rs := by
  intro rs
  induction rs with
  | nil => intro c; simp [runDay]
  | cons r rs ih =>
    intro c
    by_cases hc : c < dailyCap
    · cases hd : decideAction p r with
      | some a => simp [runDay, if_pos hc, hd, ih]
      | none => simp [runDay, if_pos hc, hd, ih]
    · simp [runDay, if_neg hc, ih]

/-- C1: for every employee and calendar day the Decision Engine emits at most
`dailyCap = 3` interventions on that day; each evaluation cycle emits at most
one intervention; once the daily cap is reached every further cycle of that
day is suppressed (emits nothing); and the risk of every cycle is still
recorded (the per-cycle risks of the output match the input exactly). -/
theorem decision_engine_rate_limit (p : ResilienceProfile) (days : List (List ℚ)) :
    (∀ d ∈ runDays p days, emitted d ≤ dailyCap) ∧
    (∀ d ∈ runDays p days, ∀ cy ∈ d, cy.action.toList.length ≤ 1) ∧
    (∀ rs : List ℚ, emitted (runDay p dailyCap rs) = 0) ∧
    (runDays p days).map (fun d => d.map (fun cy => cy.risk)) = days := by
  refine ⟨?_, ?_, ?_, ?_⟩
  · intro d hd
    simp only [runDays, List.mem_map] at hd
    obtain ⟨rs, _, rfl⟩ := hd
    have := emitted_runDay_le p rs 0
    simpa using this
  · intro d _ cy _
    cases h : cy.action <;> simp [h]
  · intro rs
    have := emitted_runDay_le p rs dailyCap
    omega
  · simp only [runDays, dayOutputs, List.map_map]
    have h : ((fun d => List.map (fun cy => cy.risk) d) ∘ dayOutputs p) =
        fun rs : List ℚ => rs := by
      funext rs
      exact runDay_risks p rs 0
    rw [h]
    exact List.map_id' days

/-- Witness for C1 at a concrete five-cycle day of high risk. -/
theorem decision_engine_rate_limit_witness :
    emitted (dayOutputs defaultProfile [9/10, 9/10, 9/10, 9/10, 9/10]) ≤ dailyCap :=
  (decision_engine_rate_limit defaultProfile [[9/10, 9/10, 9/10, 9/10, 9/10]]).1
    (dayOutputs defaultProfile [9/10, 9/10, 9/10, 9/10, 9/10]) (by simp [runDays])

/-- C2: in the Idle state with default thresholds, risk 0.90 crosses all three
thresholds but the engine emits exactly `manager_alert` — not redistribution,
not buffer insertion; in general any risk at or above the default alert
threshold yields `manager_alert` alone. -/
theorem idle_escalation_precedence :
    decideAction defaultProfile (9/10) = some ActionType.managerAlert ∧
    decideAction defaultProfile (9/10) ≠ some ActionType.workloadRedistributionSuggestion ∧
    decideAction defaultProfile (9/10) ≠ some ActionType.bufferInsertion ∧
    (∀ r : ℚ, defaultProfile.alert ≤ r →
      decideAction defaultProfile r = some ActionType.managerAlert) := by
  have h1 : decideAction defaultProfile (9/10) = some ActionType.managerAlert := by
    norm_num [decideAction, defaultProfile]
  refine ⟨h1, ?_, ?_, ?_⟩
  · rw [h1]; simp
  · rw [h1]; simp
  · intro r hr
    unfold decideAction
    rw [if_pos hr]

/-- Witness for C2 at risk 0.95. -/
theorem idle_escalation_precedence_witness :
    decideAction defaultProfile (19/20) = some ActionType.managerAlert :=
  idle_escalation_precedence.2.2.2 (19/20) (by norm_num [defaultProfile])

/-! ## Resilience Profile / Adaptive Tuner (spec §4.5) -/

/-- Outcome labels for past interventions (spec §3 `Intervention`). -/
inductive OutcomeLabel
  | pending
  | improved
  | noChange
  | worsened
deriving DecidableEq, Repr

/-- Signed direction of a threshold nudge: up when the intervention was rated
effective (`improved`), down when ineffective (`worsened`), no move otherwise. -/
def signedEffect : OutcomeLabel → ℚ
  | .improved => 1
  | .worsened => -1
  | _ => 0

/-- Learning rate of the slow exponential threshold update (configuration). -/
def learningRate : ℚ := 1/50

/-- Global floor for the buffer threshold (configuration; keeps thresholds
away from 0). -/
def bufferFloor : ℚ := 1/10

/-- Minimal strict gap maintained between adjacent thresholds (configuration). -/
def orderGap : ℚ := 1/100

/-- Global floor for the redistribution threshold. -/
def redistributionFloor : ℚ := bufferFloor + orderGap

/-- Global floor for the alert threshold. -/
def alertFloor : ℚ := bufferFloor + orderGap + orderGap

/-- Global ceiling for all thresholds (configuration; keeps thresholds ≤ 1). -/
def thresholdCeil : ℚ := 99/100

/-- Clamp `x` into the interval `[lo, hi]`. -/
def clampQ (lo hi x : ℚ) : ℚ := max lo (min hi x)

theorem le_clampQ (lo hi x : ℚ) : lo ≤ clampQ lo hi x := le_max_left _ _

theorem clampQ_le (lo hi x : ℚ) (h : lo ≤ hi) : clampQ lo hi x ≤ hi :=
  max_le h (min_le_left _ _)

/-- Modelled from the spec: `adjust_thresholds(profile, outcome)` of the
Adaptive Tuner (`backend/services` tuner code is absent from the snapshot).
Each threshold is nudged by `learning_rate × signed_effect` and clamped
within fixed global floors/ceilings; the redistribution and buffer thresholds
are additionally clamped strictly below the next threshold up, so the strict
ordering buffer < redistribution < alert is maintained. -/
def adjust_thresholds (p : ResilienceProfile) (o : OutcomeLabel) : ResilienceProfile :=
  let d := learningRate * signedEffect o
  let a := clampQ alertFloor thresholdCeil (p.alert + d)
  let r := clampQ redistributionFloor (a - orderGap) (p.redistribution + d)
  let b := clampQ bufferFloor (r - orderGap) (p.buffer + d)
  ⟨b, r, a⟩

/-- The threshold trajectory of an employee whose interventions are all rated
`improved`, starting from the default profile. -/
def improvedTraj : Nat → ResilienceProfile
  | 0 => defaultProfile
  | n + 1 => adjust_thresholds (improvedTraj n) .improved

theorem improvedTraj_succ (n : Nat) :
    improvedTraj (n + 1) = adjust_thresholds (improvedTraj n) .improved := rfl

/-- C4: every call to `adjust_thresholds` leaves all three thresholds strictly
above 0 and at most 1 and preserves the strict ordering
buffer < redistribution < alert; and over 10 successive `improved` outcomes
the buffer threshold strictly increases at each call while staying strictly
below the redistribution threshold at all times. -/
theorem adjust_thresholds_invariants :
    (∀ (p : ResilienceProfile) (o : OutcomeLabel),
      0 < (adjust_thresholds p o).buffer ∧
      0 < (adjust_thresholds p o).redistribution ∧
      0 < (adjust_thresholds p o).alert ∧
      (adjust_thresholds p o).alert ≤ 1 ∧
      (adjust_thresholds p o).redistribution ≤ 1 ∧
      (adjust_thresholds p o).buffer ≤ 1 ∧
      (adjust_thresholds p o).buffer < (adjust_thresholds p o).redistribution ∧
      (adjust_thresholds p o).redistribution < (adjust_thresholds p o).alert) ∧
    (improvedTraj 0).buffer < (improvedTraj 0).redistribution ∧
    (∀ i : Nat, i < 10 →
      (improvedTraj i).buffer < (improvedTraj (i + 1)).buffer ∧
      (improvedTraj (i + 1)).buffer < (improvedTraj (i + 1)).redistribution) := by
  refine ⟨?_, ?_, ?_⟩
  · intro p o
    set d := learningRate * signedEffect o with hd
    have ha0 : alertFloor ≤ thresholdCeil := by norm_num [alertFloor, bufferFloor, orderGap, thresholdCeil]
    have ha1 : alertFloor ≤ clampQ alertFloor thresholdCeil (p.alert + d) := le_clampQ _ _ _
    have ha2 : clampQ alertFloor thresholdCeil (p.alert + d) ≤ thresholdCeil := clampQ_le _ _ _ ha0
    set a := clampQ alertFloor thresholdCeil (p.alert + d) with hA
    have hr0 : redistributionFloor ≤ a - orderGap := by
      simp only [redistributionFloor, alertFloor] at ha1 ⊢
      linarith
    have hr1 : redistributionFloor ≤ clampQ redistributionFloor (a - orderGap) (p.redistribution + d) := le_clampQ _ _ _
    have hr2 : clampQ redistributionFloor (a - orderGap) (p.redistribution + d) ≤ a - orderGap := clampQ_le _ _ _ hr0
    set r := clampQ redistributionFloor (a - orderGap) (p.redistribution + d) with hR
    have hb0 : bufferFloor ≤ r - orderGap := by
      simp only [redistributionFloor] at hr1
      linarith
    have hb1 : bufferFloor ≤ clampQ bufferFloor (r - orderGap) (p.buffer + d) := le_clampQ _ _ _
    have hb2 : clampQ bufferFloor (r - orderGap) (p.buffer + d) ≤ r - orderGap := clampQ_le _ _ _ hb0
    set b := clampQ bufferFloor (r - orderGap) (p.buffer + d) with hB
    have hshow : adjust_thresholds p o = ⟨b, r, a⟩ := by
      simp only [adjust_thresholds, hB, hR, hA, hd]
    rw [hshow]
    have hgap : (0:ℚ) < orderGap := by norm_num [orderGap]
    have hbf : (0:ℚ) < bufferFloor := by norm_num [bufferFloor]
    have hc1 : thresholdCeil ≤ 1 := by norm_num [thresholdCeil]
    refine ⟨by simpa using lt_of_lt_of_le hbf hb1, ?_, ?_, ?_, ?_, ?_, ?_, ?_⟩ <;>
      simp only <;> linarith
  · norm_num [improvedTraj, defaultProfile]
  · have h0 : improvedTraj 0 = ⟨3/5, 3/4, 17/20⟩ := rfl
    have estep : ∀ (n : Nat) (b r a : ℚ), improvedTraj n = ⟨b, r, a⟩ →
        improvedTraj (n + 1) =
          ⟨clampQ bufferFloor
              (clampQ redistributionFloor
                  (clampQ alertFloor thresholdCeil (a + 1/50) - orderGap) (r + 1/50) -
                orderGap)
              (b + 1/50),
            clampQ redistributionFloor
              (clampQ alertFloor thresholdCeil (a + 1/50) - orderGap) (r + 1/50),
            clampQ alertFloor thresholdCeil (a + 1/50)⟩ := by
      intro n b r a h
      rw [improvedTraj_succ, h]
      simp [adjust_thresholds, learningRate, signedEffect]
    have h1 : improvedTraj 1 = ⟨31/50, 77/100, 87/100⟩ := by
      rw [estep 0 _ _ _ h0]
      norm_num [clampQ, bufferFloor, redistributionFloor, alertFloor, thresholdCeil, orderGap]
    have h2 : improvedTraj 2 = ⟨16/25, 79/100, 89/100⟩ := by
      rw [estep 1 _ _ _ h1]
      norm_num [clampQ, bufferFloor, redistributionFloor, alertFloor, thresholdCeil, orderGap]
    have h3 : improvedTraj 3 = ⟨33/50, 81/100, 91/100⟩ := by
      rw [estep 2 _ _ _ h2]
      norm_num [clampQ, bufferFloor, redistributionFloor, alertFloor, thresholdCeil, orderGap]
    have h4 : improvedTraj 4 = ⟨17/25, 83/100, 93/100⟩ := by
      rw [estep 3 _ _ _ h3]
      norm_num [clampQ, bufferFloor, redistributionFloor, alertFloor, thresholdCeil, orderGap]
    have h5 : improvedTraj 5 = ⟨7/10, 17/20, 19/20⟩ := by
      rw [estep 4 _ _ _ h4]
      norm_num [clampQ, bufferFloor, redistributionFloor, alertFloor, thresholdCeil, orderGap]
    have h6 : improvedTraj 6 = ⟨18/25, 87/100, 97/100⟩ := by
      rw [estep 5 _ _ _ h5]
      norm_num [clampQ, bufferFloor, redistributionFloor, alertFloor, thresholdCeil, orderGap]
    have h7 : improvedTraj 7 = ⟨37/50, 89/100, 99/100⟩ := by
      rw [estep 6 _ _ _ h6]
      norm_num [clampQ, bufferFloor, redistributionFloor, alertFloor, thresholdCeil, orderGap]
    have h8 : improvedTraj 8 = ⟨19/25, 91/100, 99/100⟩ := by
      rw [estep 7 _ _ _ h7]
      norm_num [clampQ, bufferFloor, redistributionFloor, alertFloor, thresholdCeil, orderGap]
    have h9 : improvedTraj 9 = ⟨39/50, 93/100, 99/100⟩ := by
      rw [estep 8 _ _ _ h8]
      norm_num [clampQ, bufferFloor, redistributionFloor, alertFloor, thresholdCeil, orderGap]
    have h10 : improvedTraj 10 = ⟨4/5, 19/20, 99/100⟩ := by
      rw [estep 9 _ _ _ h9]
      norm_num [clampQ, bufferFloor, redistributionFloor, alertFloor, thresholdCeil, orderGap]
    intro i hi
    interval_cases i <;>
      refine ⟨?_, ?_⟩ <;>
        simp only [h0, h1, h2, h3, h4, h5, h6, h7, h8, h9, h10] <;> norm_num

/-- Witness for C4 at the default profile, an `improved` outcome, and the
first trajectory step. -/
theorem adjust_thresholds_invariants_witness :
    (0 < (adjust_thresholds defaultProfile OutcomeLabel.improved).buffer ∧
      0 < (adjust_thresholds defaultProfile OutcomeLabel.improved).redistribution ∧
      0 < (adjust_thresholds defaultProfile OutcomeLabel.improved).alert ∧
      (adjust_thresholds defaultProfile OutcomeLabel.improved).alert ≤ 1 ∧
      (adjust_thresholds defaultProfile OutcomeLabel.improved).redistribution ≤ 1 ∧
      (adjust_thresholds defaultProfile OutcomeLabel.improved).buffer ≤ 1 ∧
      (adjust_thresholds defaultProfile OutcomeLabel.improved).buffer <
        (adjust_thresholds defaultProfile OutcomeLabel.improved).redistribution ∧
      (adjust_thresholds defaultProfile OutcomeLabel.improved).redistribution <
        (adjust_thresholds defaultProfile OutcomeLabel.improved).alert) ∧
    ((improvedTraj 0).buffer < (improvedTraj 1).buffer ∧
      (improvedTraj 1).buffer < (improvedTraj 1).redistribution) :=
  ⟨adjust_thresholds_invariants.1 defaultProfile OutcomeLabel.improved,
    adjust_thresholds_invariants.2.2 0 (by norm_num)⟩

/-! ## Baseline Tracker state (spec §3 `BaselineState`, §4.1) -/

/-- Rolling window length in days (default 7). -/
def windowLen : Nat := 7

/-- Per-(employee, signal) baseline: the fixed-length sliding window of the
most recent values and the last-updated day index. Mean and variance are
recomputed from the window (the spec allows the naive O(window) recompute). -/
structure BaselineState where
  window : List ℚ
  lastDay : Option Nat
deriving DecidableEq, Repr

/-- Sample count of a baseline. -/
def BaselineState.count (b : BaselineState) : Nat := b.window.length

/-- Running mean over the window. -/
def BaselineState.mean (b : BaselineState) : ℚ :=
  if b.window.length = 0 then 0 else b.window.sum / b.window.length

/-- Running (population) variance over the window. -/
def BaselineState.variance (b : BaselineState) : ℚ :=
  if b.window.length = 0 then 0
  else ((b.window.map (fun v => (v - b.mean) ^ 2)).sum) / b.window.length

/-! ## Instability Detector (spec §4.2) -/

/-- Clamp into the unit interval `[0, 1]`. -/
def clamp01 (x : ℚ) : ℚ := max 0 (min 1 x)

theorem clamp01_nonneg (x : ℚ) : 0 ≤ clamp01 x := le_max_left _ _

theorem clamp01_le_one (x : ℚ) : clamp01 x ≤ 1 :=
  max_le (by norm_num) (min_le_left _ _)

/-- Variance floor standing for `max(std, ε)` (configuration). -/
def epsilonVar : ℚ := 1/1000000

/-- Anomaly cut: a signal is flagged when its standardized distance exceeds
2.5 σ (default). -/
def anomalySigma : ℚ := 5/2

/-- Minimum samples before a signal's baseline is warm (spec §4.1: 3). -/
def warmSamples : Nat := 3

/-- Minimum days of assessment history before volatility, acceleration and
the change-point signal are defined (spec §4.2: 3). -/
def minHistoryDays : Nat := 3

/-- Squared standardized distance of a value from its baseline.  The square
`(value − mean)² / max(variance, ε)` is used instead of
`(value − mean)/max(std, ε)` so the computation stays inside ℚ; comparisons
against the 2.5 σ cut are made against `(2.5)²` accordingly. -/
def sqDeviation (v : ℚ) (b : BaselineState) : ℚ :=
  (v - b.mean) ^ 2 / max b.variance epsilonVar

/-- Modelled from the spec: the per-signal deviations of a snapshot against
warm baselines (`backend/services` detector code is absent from the
snapshot).  Signals without a baseline, or with a cold baseline
(fewer than `warmSamples` samples), are skipped, not errors. -/
def warmDeviations (snapshot : List (String × ℚ))
    (baselines : String → Option BaselineState) : List (String × ℚ) :=
  snapshot.filterMap (fun kv =>
    match baselines kv.1 with
    | some b => if warmSamples ≤ b.count then some (kv.1, sqDeviation kv.2 b) else none
    | none => none)

/-- Normalized baseline-deviation component in [0, 1]: mean over the warm
signals of each signal's deviation relative to the anomaly cut, capped at 1. -/
def baselineDevScore (devs : List (String × ℚ)) : ℚ :=
  if devs.length = 0 then 0
  else ((devs.map (fun kd => min 1 (kd.2 / anomalySigma ^ 2))).sum) / devs.length

/-- Signals ranked by deviation magnitude, descending, truncated to 5. -/
def topContributors (devs : List (String × ℚ)) : List String :=
  ((devs.insertionSort (fun x y => y.2 ≤ x.2)).take 5).map (fun kd => kd.1)

/-- Mean of a list of rationals (0 for the empty list). -/
def meanQ (l : List ℚ) : ℚ := if l.length = 0 then 0 else l.sum / l.length

/-- Absolute successive differences of a series. -/
def successiveDiffs (l : List ℚ) : List ℚ :=
  (l.zip l.tail).map (fun ab => |ab.2 - ab.1|)

/-- Volatility: short-window dispersion of the recent stability-index series
(mean absolute successive difference). -/
def volatilityOf (hist : List ℚ) : ℚ := meanQ (successiveDiffs hist)

/-- Volatility acceleration: change of the volatility when the latest point
is added. -/
def accelerationOf (hist : List ℚ) : ℚ :=
  volatilityOf hist - volatilityOf hist.dropLast

/-- Change-point signal in [0, 1]: how far the mean of the last 3 days has
shifted from the overall mean of the series (a simple sequential estimate of
a recent regime shift). -/
def changePointOf (hist : List ℚ) : ℚ :=
  clamp01 |meanQ (hist.drop (hist.length - 3)) - meanQ hist|

/-- Weight of the baseline-deviation component (configuration). -/
def wDev : ℚ := 7/20

/-- Weight of the multivariate anomaly score (configuration). -/
def wAnom : ℚ := 1/4

/-- Weight of the change-point signal (configuration). -/
def wCp : ℚ := 1/4

/-- Weight of the volatility-acceleration component (configuration). -/
def wAccel : ℚ := 3/20

/-- Risk levels: monotone bucketing of the risk probability. -/
inductive RiskLevel
  | low
  | moderate
  | high
  | critical
deriving DecidableEq, Repr

/-- Severity rank of a risk level. -/
def RiskLevel.rank : RiskLevel → Nat
  | .low => 0
  | .moderate => 1
  | .high => 2
  | .critical => 3

/-- Bucketing of the risk probability at the default cut points
(< 0.4 low, < 0.6 moderate, < 0.85 high, else critical). -/
def riskLevelOf (p : ℚ) : RiskLevel :=
  if p < 2/5 then .low
  else if p < 3/5 then .moderate
  else if p < 17/20 then .high
  else .critical

/-- One per (employee, day); spec §3 `StabilityAssessment`. -/
structure StabilityAssessment where
  stability_index : ℚ
  risk_probability : ℚ
  risk_level : RiskLevel
  volatility : ℚ
  acceleration : ℚ
  top_contributors : List String
  anomaly_flags : List String
deriving DecidableEq, Repr

/-- Modelled from the spec: `assess(employee, day, snapshot, baseline)` of the
Instability Detector (its backend file is absent from the snapshot).  The
multivariate anomaly model is a replaceable engine behind a fixed interface,
so its scalar output in [0, 1] is an input here.  The four components are
combined by the fixed weighted sum; with fewer than `minHistoryDays` days of
history, volatility, acceleration and change-point are zero contribution, not
an error. -/
def assess (snapshot : List (String × ℚ)) (baselines : String → Option BaselineState)
    (anomalyScore : ℚ) (history : List ℚ) : StabilityAssessment :=
  let devs := warmDeviations snapshot baselines
  let vol := if history.length < minHistoryDays then 0 else volatilityOf history
  let accel := if history.length < minHistoryDays then 0 else accelerationOf history
  let cp := if history.length < minHistoryDays then 0 else changePointOf history
  let risk := clamp01 (wDev * baselineDevScore devs + wAnom * clamp01 anomalyScore +
    wCp * cp + wAccel * accel)
  { stability_index := 1 - risk
    risk_probability := risk
    risk_level := riskLevelOf risk
    volatility := vol
    acceleration := accel
    top_contributors := topContributors devs
    anomaly_flags := (devs.filter (fun kd => anomalySigma ^ 2 < kd.2)).map (fun kd => kd.1) }

/-- C3: for every assessment produced by `assess`, the stability index and the
risk probability sum to 1 exactly; the risk level is the fixed bucketing of
the risk probability; and that bucketing is monotone non-decreasing across
low < moderate < high < critical. -/
theorem assessment_complement_and_monotone :
    (∀ (snapshot : List (String × ℚ)) (baselines : String → Option BaselineState)
        (anomalyScore : ℚ) (history : List ℚ),
      (assess snapshot baselines anomalyScore history).stability_index +
        (assess snapshot baselines anomalyScore history).risk_probability = 1) ∧
    (∀ (snapshot : List (String × ℚ)) (baselines : String → Option BaselineState)
        (anomalyScore : ℚ) (history : List ℚ),
      (assess snapshot baselines anomalyScore history).risk_level =
        riskLevelOf (assess snapshot baselines anomalyScore history).risk_probability) ∧
    (∀ p q : ℚ, p ≤ q → (riskLevelOf p).rank ≤ (riskLevelOf q).rank) := by
  refine ⟨?_, ?_, ?_⟩
  · intro snapshot baselines anomalyScore history
    simp only [assess]
    ring
  · intro snapshot baselines anomalyScore history
    rfl
  · intro p q hpq
    unfold riskLevelOf
    split_ifs <;> simp [RiskLevel.rank] <;> linarith

/-- Witness for C3: a concrete assessment with an empty snapshot and a cold
history, and the bucket monotonicity at 1/4 ≤ 1/2. -/
theorem assessment_complement_and_monotone_witness :
    ((assess [] (fun _ => none) (1/2) []).stability_index +
      (assess [] (fun _ => none) (1/2) []).risk_probability = 1) ∧
    (riskLevelOf (1/4)).rank ≤ (riskLevelOf (1/2)).rank :=
  ⟨assessment_complement_and_monotone.1 [] (fun _ => none) (1/2) [],
    assessment_complement_and_monotone.2.2 (1/4) (1/2) (by norm_num)⟩

/-- C7: with fewer than 3 days of history, `assess` still succeeds (it is a
total function): volatility and acceleration are defined and equal to zero,
the change-point contribution vanishes — the risk probability is exactly the
clamped weighted sum of baseline deviation and anomaly score alone — and the
resulting risk probability is a valid score in [0, 1]. -/
theorem assess_cold_history (snapshot : List (String × ℚ))
    (baselines : String → Option BaselineState) (anomalyScore : ℚ)
    (history : List ℚ) (h : history.length < minHistoryDays) :
    (assess snapshot baselines anomalyScore history).volatility = 0 ∧
    (assess snapshot baselines anomalyScore history).acceleration = 0 ∧
    (assess snapshot baselines anomalyScore history).risk_probability =
      clamp01 (wDev * baselineDevScore (warmDeviations snapshot baselines) +
        wAnom * clamp01 anomalyScore) ∧
    0 ≤ (assess snapshot baselines anomalyScore history).risk_probability ∧
    (assess snapshot baselines anomalyScore history).risk_probability ≤ 1 := by
  refine ⟨?_, ?_, ?_, clamp01_nonneg _, clamp01_le_one _⟩
  · simp [assess, if_pos h]
  · simp [assess, if_pos h]
  · simp [assess, if_pos h]

/-- Witness for C7 at an empty history. -/
theorem assess_cold_history_witness :
    (assess [] (fun _ => none) (1/2) []).volatility = 0 ∧
    (assess [] (fun _ => none) (1/2) []).acceleration = 0 :=
  ⟨(assess_cold_history [] (fun _ => none) (1/2) [] (by norm_num [minHistoryDays])).1,
    (assess_cold_history [] (fun _ => none) (1/2) [] (by norm_num [minHistoryDays])).2.1⟩

/-! ## Baseline Tracker update (spec §4.1, §6) -/

/-- Admit a value into a fixed-size sliding window: if the window is full the
oldest sample (the head) is evicted before the new one is appended. -/
def pushSample (w : List ℚ) (v : ℚ) : List ℚ :=
  if w.length < windowLen then w ++ [v] else w.tail ++ [v]

/-- Modelled from the spec: `update(employee, day, snapshot)` of the Baseline
Tracker for one signal (`backend/services` tracker code is absent from the
snapshot).  The call is idempotent per (employee, day): re-delivery of a day
already recorded leaves the state unchanged; otherwise the oldest sample is
evicted if the window is full and the new value admitted. -/
def update (b : BaselineState) (day : Nat) (v : ℚ) : BaselineState :=
  if b.lastDay = some day then b
  else { window := pushSample b.window v, lastDay := some day }

/-- A run of daily updates on consecutive day indices starting at `d`. -/
def runFrom (b : BaselineState) (d : Nat) : List ℚ → BaselineState
  | [] => b
  | v :: vs => runFrom (update b d v) (d + 1) vs

/-- A fresh per-signal tracker run over a series of daily values. -/
def runTracker (vs : List ℚ) : BaselineState :=
  runFrom ⟨[], none⟩ 0 vs

theorem pushSample_length_le (w : List ℚ) (v : ℚ) (h : w.length ≤ windowLen) :
    (pushSample w v).length ≤ windowLen := by
  by_cases hlt : w.length < windowLen
  · simp only [pushSample, if_pos hlt, List.length_append, List.length_singleton]
    omega
  · have hw : w.length = windowLen := by omega
    cases w with
    | nil => simp [windowLen] at hw
    | cons x t =>
      simp only [pushSample, if_neg hlt, List.tail_cons, List.length_append,
        List.length_singleton]
      simp only [List.length_cons] at hw
      omega

theorem foldl_push_window : ∀ (vs w : List ℚ), w.length ≤ windowLen →
    List.foldl pushSample w vs = (w ++ vs).drop (w.length + vs.length - windowLen) := by
  intro vs
  induction vs with
  | nil =>
    intro w h
    simp only [List.foldl_nil, List.append_nil, List.length_nil, Nat.add_zero]
    rw [Nat.sub_eq_zero_of_le h, List.drop_zero]
  | cons v vs ih =>
    intro w h
    by_cases hlt : w.length < windowLen
    · have hp : pushSample w v = w ++ [v] := by simp [pushSample, if_pos hlt]
      have hlen : (w ++ [v]).length = w.length + 1 := by simp
      have hl : (w ++ [v]).length ≤ windowLen := by omega
      have hrec := ih (w ++ [v]) hl
      have hidx : (w ++ [v]).length + vs.length - windowLen
          = w.length + (v :: vs).length - windowLen := by
        simp only [List.length_cons]
        omega
      calc List.foldl pushSample w (v :: vs)
          = List.foldl pushSample (w ++ [v]) vs := by
            rw [List.foldl_cons, hp]
        _ = ((w ++ [v]) ++ vs).drop ((w ++ [v]).length + vs.length - windowLen) := hrec
        _ = (w ++ v :: vs).drop (w.length + (v :: vs).length - windowLen) := by
            rw [List.append_assoc, List.singleton_append, hidx]
    · have hw : w.length = windowLen := by omega
      cases w with
      | nil => simp [windowLen] at hw
      | cons x t =>
        have ht : t.length + 1 = windowLen := by
          simp only [List.length_cons] at hw
          exact hw
        have hp : pushSample (x :: t) v = t ++ [v] := by
          unfold pushSample
          rw [if_neg hlt]
          rfl
        have hlen : (t ++ [v]).length = t.length + 1 := by simp
        have hl : (t ++ [v]).length ≤ windowLen := by omega
        have hrec := ih (t ++ [v]) hl
        have hidx : (x :: t).length + (v :: vs).length - windowLen
            = ((t ++ [v]).length + vs.length - windowLen) + 1 := by
          simp only [List.length_cons]
          omega
        calc List.foldl pushSample (x :: t) (v :: vs)
            = List.foldl pushSample (t ++ [v]) vs := by
              rw [List.foldl_cons, hp]
          _ = ((t ++ [v]) ++ vs).drop ((t ++ [v]).length + vs.length - windowLen) := hrec
          _ = ((x :: t) ++ v :: vs).drop ((x :: t).length + (v :: vs).length - windowLen) := by
              rw [hidx, List.append_assoc, List.singleton_append,
                show ((x :: t) ++ v :: vs) = x :: (t ++ v :: vs) from rfl,
                List.drop_succ_cons]

theorem runFrom_window : ∀ (vs : List ℚ) (b : BaselineState) (d : Nat),
    (b.lastDay = none ∨ ∃ d0, b.lastDay = some d0 ∧ d0 < d) →
    (runFrom b d vs).window = List.foldl pushSample b.window vs := by
  intro vs
  induction vs with
  | nil => intro b d _; rfl
  | cons v vs ih =>
    intro b d h
    have hne : ¬ b.lastDay = some d := by
      rcases h with h | ⟨d0, h0, hlt⟩
      · simp [h]
      · simp only [h0, Option.some_inj]
        omega
    have hup : update b d v = ⟨pushSample b.window v, some d⟩ := by
      simp [update, if_neg hne]
    show (runFrom (update b d v) (d + 1) vs).window = _
    rw [hup, List.foldl_cons]
    exact ih ⟨pushSample b.window v, some d⟩ (d + 1) (Or.inr ⟨d, rfl, by omega⟩)

/-- C6: over any series of daily snapshot values, the per-signal window of the
Baseline Tracker holds exactly the most recent at-most-`windowLen` values
(the oldest samples are the evicted ones), so the sample count never exceeds
the configured window length of 7 — a fixed-size sliding window, not an
unbounded accumulator; moreover any single `update` call preserves the bound. -/
theorem baseline_window_invariant (vs : List ℚ) :
    (runTracker vs).window = vs.drop (vs.length - windowLen) ∧
    (runTracker vs).count ≤ windowLen ∧
    (∀ (b : BaselineState) (day : Nat) (v : ℚ), b.count ≤ windowLen →
      (update b day v).count ≤ windowLen) := by
  have h1 : (runTracker vs).window = List.foldl pushSample [] vs :=
    runFrom_window vs ⟨[], none⟩ 0 (Or.inl rfl)
  have h2 := foldl_push_window vs [] (by simp [windowLen])
  refine ⟨?_, ?_, ?_⟩
  · rw [h1, h2]
    simp
  · rw [BaselineState.count, h1, h2]
    simp only [List.nil_append, List.length_nil, List.length_drop]
    omega
  · intro b day v hb
    by_cases hd : b.lastDay = some day
    · simpa [update, if_pos hd] using hb
    · simp only [update, if_neg hd, BaselineState.count]
      exact pushSample_length_le b.window v hb

/-- Witness for C6's single-call clause at a full window. -/
theorem baseline_window_invariant_witness :
    (update ⟨[1, 2, 3, 4, 5, 6, 7], some 6⟩ 7 (8 : ℚ)).count ≤ windowLen :=
  (baseline_window_invariant []).2.2 ⟨[1, 2, 3, 4, 5, 6, 7], some 6⟩ 7 8
    (by simp [BaselineState.count, windowLen])

/-- C8: snapshot ingestion is idempotent per (employee, day): delivering the
same day's value a second time leaves the tracker state unchanged — the value
is not double-counted in the window. -/
theorem snapshot_ingestion_idempotent (b : BaselineState) (day : Nat) (v : ℚ) :
    update (update b day v) day v = update b day v := by
  by_cases h : b.lastDay = some day
  · simp [update, if_pos h]
  · simp [update, if_neg h]

/-! ## Forecaster (spec §4.3) -/

/-- Minimum history length before forecasting is possible (default 14 days). -/
def minHistory : Nat := 14

/-- Forecast horizon (fixed at 7 days). -/
def horizonDays : Nat := 7

/-- Tipping threshold on the forecast curve (default 0.85). -/
def tippingThreshold : ℚ := 17/20

/-- Ensemble weight of the seasonal/trend model (default 60%). -/
def trendWeight : ℚ := 3/5

/-- Ensemble weight of the sequence model (default 40%). -/
def seqWeight : ℚ := 2/5

/-- The seasonal/trend decomposition strategy: extrapolates the smooth trend
of the recent window (a replaceable statistical engine behind the fixed
`Forecaster` interface). -/
def trendModel (hist : List ℚ) : List ℚ :=
  let recent := hist.drop (hist.length - windowLen)
  let base := meanQ recent
  let slope := (recent.getLast?.getD 0 - recent.head?.getD 0) / windowLen
  (List.range horizonDays).map (fun i => clamp01 (base + slope * (i + 1)))

/-- The sequence-model strategy: extrapolates short-range momentum from the
tail of the series (a replaceable statistical engine). -/
def seqModel (hist : List ℚ) : List ℚ :=
  let last := hist.getLast?.getD 0
  let prev := hist.dropLast.getLast?.getD last
  (List.range horizonDays).map (fun i => clamp01 (last + (last - prev) * (i + 1)))

/-- Recoverable forecaster error (spec §7). -/
inductive ForecastError
  | insufficientHistory
deriving DecidableEq, Repr

/-- One per (employee, generation time); spec §3 `BurnoutForecast`. -/
structure BurnoutForecast where
  horizon_days : Nat
  forecast_curve : List ℚ
  confidence_band : List (ℚ × ℚ)
  tipping_point_day : Option Nat
  peak_day : Option Nat
  peak_value : ℚ
deriving DecidableEq, Repr

/-- Modelled from the spec: `forecast(employee, assessment_history)` of the
Forecaster (`backend/services/forecasting_service.py` is absent from the
snapshot).  Callable only once at least `minHistory` days of history exist;
before that it fails with the recoverable `InsufficientHistory`.  The two
strategy models are blended by the explicit 60/40 weighted average; the
confidence band is the per-day envelope of the two models' disagreement; the
tipping point is the first day the curve exceeds the tipping threshold. -/
def forecast (hist : List ℚ) : Except ForecastError BurnoutForecast :=
  if hist.length < minHistory then .error .insufficientHistory
  else
    let t := trendModel hist
    let s := seqModel hist
    let curve := List.zipWith (fun a b => trendWeight * a + seqWeight * b) t s
    let peak := curve.foldl max 0
    .ok
      { horizon_days := horizonDays
        forecast_curve := curve
        confidence_band := List.zipWith (fun a b => (min a b, max a b)) t s
        tipping_point_day := curve.findIdx? (fun x => tippingThreshold < x)
        peak_day := curve.findIdx? (fun x => peak ≤ x)
        peak_value := peak }

/-- The caller's view of a failed forecast: the cycle skips forecasting for
the employee instead of failing the pipeline. -/
def forecastOrSkip (hist : List ℚ) : Option BurnoutForecast :=
  (forecast hist).toOption

/-- C5: with fewer than 14 days of assessment history, `forecast` fails with
the recoverable `InsufficientHistory`; at exactly 14 days it succeeds; and
for a short history the caller-facing step merely skips (yields `none`)
rather than propagating a failure. -/
theorem forecast_min_history :
    (∀ hist : List ℚ, hist.length < minHistory →
      forecast hist = Except.error ForecastError.insufficientHistory) ∧
    (∀ hist : List ℚ, hist.length = minHistory → ∃ f, forecast hist = Except.ok f) ∧
    (∀ hist : List ℚ, hist.length < minHistory → forecastOrSkip hist = none) := by
  refine ⟨?_, ?_, ?_⟩
  · intro hist h
    simp [forecast, if_pos h]
  · intro hist h
    have hn : ¬ hist.length < minHistory := by omega
    exact ⟨_, by rw [forecast.eq_def, if_neg hn]⟩
  · intro hist h
    simp [forecastOrSkip, forecast, if_pos h, Except.toOption]

/-- Witness for C5: a flat history of 13 days fails recoverably, one of
exactly 14 days succeeds. -/
theorem forecast_min_history_witness :
    forecast (List.replicate 13 (1/2)) = Except.error ForecastError.insufficientHistory ∧
    (∃ f, forecast (List.replicate 14 (1/2)) = Except.ok f) ∧
    forecastOrSkip (List.replicate 13 (1/2)) = none :=
  ⟨forecast_min_history.1 (List.replicate 13 (1/2)) (by simp [minHistory]),
    forecast_min_history.2.1 (List.replicate 14 (1/2)) (by simp [minHistory]),
    forecast_min_history.2.2 (List.replicate 13 (1/2)) (by simp [minHistory])⟩

/-! ## Role-based navigation filtering (`setupNavigation`, README.md / app.js) -/

/-- A DOM element as seen by the navigation filter: its `data-view` attribute
and its inline `display` style. -/
structure DomElement where
  dataView : Option String
  display : String
deriving DecidableEq, Repr

/-- The role-based per-element display assignments of `setupNavigation`
(README.md lines 754–784), applied in source order.  `role` is the value read
from `localStorage` (`none` when absent).  The `getElementById`-based
operations of the same function (`#nav-reports`, the dashboard stability
section, the interventions stat card, branding) target fixed single elements,
not the `data-view` query results modelled here. -/
def applyRoleNavFilter (role : Option String) (el : DomElement) : DomElement :=
  let el :=
    if el.dataView = some "admin" ∨ el.dataView = some "managers" then
      { el with display := if role = some "Admin" then "flex" else "none" }
    else el
  let el :=
    if el.dataView = some "manager" ∨ el.dataView = some "employees" ∨
        el.dataView = some "reports" then
      { el with display := if role = some "Admin" ∨ role = some "Manager" then "flex" else "none" }
    else el
  let el :=
    if (role = some "Admin" ∨ role = some "Manager") ∧ el.dataView = some "checkin" then
      { el with display := "none" }
    else el
  let el :=
    if el.dataView = some "cv-scanner" then
      { el with display := if role = some "Employee" then "flex" else "none" }
    else el
  let el :=
    if role = some "Employee" ∧
        (el.dataView = some "forecast" ∨ el.dataView = some "interventions") then
      { el with display := "none" }
    else el
  el

/-- C9: after `setupNavigation` runs, an element carrying
`data-view="cv-scanner"` has display style `flex` exactly when the stored
role is `Employee`, and `none` otherwise — the Live CV Scanner navigation
entry is visible only to the Employee role, hidden from Admin and Manager. -/
theorem cv_scanner_employee_only (role : Option String) (el : DomElement)
    (h : el.dataView = some "cv-scanner") :
    (applyRoleNavFilter role el).display =
      (if role = some "Employee" then "flex" else "none") ∧
    ((applyRoleNavFilter role el).display = "flex" ↔ role = some "Employee") := by
  have hmain : (applyRoleNavFilter role el).display =
      (if role = some "Employee" then "flex" else "none") := by
    simp [applyRoleNavFilter, h]
  refine ⟨hmain, ?_⟩
  rw [hmain]
  by_cases hr : role = some "Employee"
  · simp [hr]
  · simp [hr]

/-- Witness for C9: the scanner entry is shown for an Employee and hidden for
an Admin. -/
theorem cv_scanner_employee_only_witness :
    (applyRoleNavFilter (some "Employee") ⟨some "cv-scanner", "none"⟩).display =
      (if (some "Employee" : Option String) = some "Employee" then "flex" else "none") ∧
    ((applyRoleNavFilter (some "Admin") ⟨some "cv-scanner", "none"⟩).display = "flex" ↔
      (some "Admin" : Option String) = some "Employee") :=
  ⟨(cv_scanner_employee_only (some "Employee") ⟨some "cv-scanner", "none"⟩ rfl).1,
    (cv_scanner_employee_only (some "Admin") ⟨some "cv-scanner", "none"⟩ rfl).2⟩

/-! ## CV scanner analysis fallback (`frontend/cv_scanner.js`) -/

/-- Emotion distribution as returned by the analysis endpoint. -/
structure EmotionDist where
  happy : ℚ
  neutral : ℚ
  sad : ℚ
  angry : ℚ
  fear : ℚ
deriving DecidableEq, Repr

/-- Micro-tension metrics as returned by the analysis endpoint. -/
structure TensionMetrics where
  brow_tension : ℚ
  jaw_tension : ℚ
  eye_fatigue : ℚ
deriving DecidableEq, Repr

/-- Payload consumed by `updateCVUI`; each field may be absent in a backend
response (`updateCVUI` guards each one), the explanation list may be empty. -/
structure CVData where
  emotion_distribution : Option EmotionDist
  emotional_strain_index : Option ℚ
  live_burnout_score : Option ℚ
  micro_tension_metrics : Option TensionMetrics
  explanation : List String
deriving DecidableEq, Repr

/-- Scanner UI state: the emotion chart data, the strain and burnout readouts
with their status badges, the three tension bars, the confidence text and the
explanation panel. -/
structure ScannerUI where
  chartData : List ℤ
  strainValue : Option ℤ
  strainStatus : String
  burnoutValue : Option ℤ
  burnoutStatus : String
  browBar : Option ℤ
  jawBar : Option ℤ
  eyeBar : Option ℤ
  confidenceText : String
  explanationItems : List String
deriving DecidableEq, Repr

/-- UI state right after `initEmotionChart` (chart seeded with
[20, 60, 10, 5, 5], nothing else filled in). -/
def initialScannerUI : ScannerUI :=
  ⟨[20, 60, 10, 5, 5], none, "", none, "", none, none, none, "", []⟩

/-- Strain badge thresholds of `updateCVUI` (cv_scanner.js lines 218–227). -/
def strainStatusOf (v : ℤ) : String :=
  if 70 < v then "ELEVATED" else if 40 < v then "MODERATE" else "BASELINE"

/-- Burnout badge thresholds of `updateCVUI` (cv_scanner.js lines 236–245). -/
def burnoutStatusOf (v : ℤ) : String :=
  if 70 < v then "HIGH RISK" else if 40 < v then "MODERATE" else "OPTIMAL"

/-- `updateTensionBar`: a [0, 1] value displayed as a rounded percentage. -/
def tensionBarValue (v : ℚ) : ℤ := round (v * 100)

/-- `updateCVUI(data)` of cv_scanner.js: each present field updates its part
of the scanner UI, the confidence text is set unconditionally to "88%", and a
non-empty explanation list replaces the explanation panel. -/
def updateCVUI (ui : ScannerUI) (data : CVData) : ScannerUI :=
  let ui :=
    match data.emotion_distribution with
    | some e =>
      { ui with chartData :=
          [round (e.happy * 100), round (e.neutral * 100), round (e.sad * 100),
            round (e.angry * 100), round (e.fear * 100)] }
    | none => ui
  let ui :=
    match data.emotional_strain_index with
    | some s =>
      { ui with strainValue := some (round s), strainStatus := strainStatusOf (round s) }
    | none => ui
  let ui :=
    match data.live_burnout_score with
    | some sc =>
      { ui with burnoutValue := some (round sc), burnoutStatus := burnoutStatusOf (round sc) }
    | none => ui
  let ui :=
    match data.micro_tension_metrics with
    | some t =>
      { ui with
          browBar := some (tensionBarValue t.brow_tension)
          jawBar := some (tensionBarValue t.jaw_tension)
          eyeBar := some (tensionBarValue t.eye_fatigue) }
    | none => ui
  let ui := { ui with confidenceText := "88%" }
  if 0 < data.explanation.length then { ui with explanationItems := data.explanation } else ui

/-- `updateUIWithDemoData` of cv_scanner.js: the fixed-shape demo payload.
`r` supplies the `Math.random()` draws in call order (each in [0, 1)). -/
def demoData (r : Nat → ℚ) : CVData :=
  { emotion_distribution := some
      { happy := 15/100 + r 0 * (2/10)
        neutral := 4/10 + r 1 * (2/10)
        sad := 5/100 + r 2 * (1/10)
        angry := 2/100 + r 3 * (5/100)
        fear := 3/100 + r 4 * (5/100) }
    emotional_strain_index := some (25 + r 5 * 30)
    live_burnout_score := some (30 + r 6 * 25)
    micro_tension_metrics := some
      { brow_tension := 2/10 + r 7 * (3/10)
        jaw_tension := 15/100 + r 8 * (25/100)
        eye_fatigue := 25/100 + r 9 * (3/10) }
    explanation :=
      ["Neutral emotional state detected across recent frames",
        "Minimal facial tension indicators observed",
        "Baseline stress levels within normal parameters",
        "No significant burnout risk detected at this time"] }

/-- `updateUIWithDemoData` builds the demo payload and hands it to
`updateCVUI`. -/
def updateUIWithDemoData (ui : ScannerUI) (r : Nat → ℚ) : ScannerUI :=
  updateCVUI ui (demoData r)

/-- Result of the POST to `/api/cv/analyze` inside `performCVAnalysis`:
a parsed ok-response, a non-ok response, or a thrown fetch error. -/
inductive FetchOutcome
  | ok (data : CVData)
  | notOk
  | threw
deriving DecidableEq, Repr

/-- The response handling of `performCVAnalysis` (cv_scanner.js lines
169–191): an ok response goes to `updateCVUI`, a non-ok response and a
thrown error both fall back to `updateUIWithDemoData`; no error propagates. -/
def performCVAnalysisStep (ui : ScannerUI) (r : Nat → ℚ) : FetchOutcome → ScannerUI
  | .ok d => updateCVUI ui d
  | .notOk => updateUIWithDemoData ui r
  | .threw => updateUIWithDemoData ui r

/-- C10: whenever the POST to `/api/cv/analyze` returns a non-ok response or
throws, `performCVAnalysis` does not propagate the error: it updates the
scanner UI by calling `updateCVUI` with the demo payload of
`updateUIWithDemoData`, whose shape is fixed (all five sections present:
emotion distribution, strain index, burnout score, micro-tension metrics and
a 4-line explanation), so the UI is never left un-updated — in particular
the confidence text of the resulting UI is freshly set. -/
theorem cv_analysis_fallback (ui : ScannerUI) (r : Nat → ℚ) (o : FetchOutcome)
    (h : o = FetchOutcome.notOk ∨ o = FetchOutcome.threw) :
    performCVAnalysisStep ui r o = updateCVUI ui (demoData r) ∧
    (demoData r).emotion_distribution.isSome = true ∧
    (demoData r).emotional_strain_index.isSome = true ∧
    (demoData r).live_burnout_score.isSome = true ∧
    (demoData r).micro_tension_metrics.isSome = true ∧
    (demoData r).explanation.length = 4 ∧
    (performCVAnalysisStep ui r o).confidenceText = "88%" := by
  have h1 : performCVAnalysisStep ui r o = updateCVUI ui (demoData r) := by
    rcases h with h | h <;> subst h <;> rfl
  refine ⟨h1, rfl, rfl, rfl, rfl, rfl, ?_⟩
  rw [h1]
  simp [updateCVUI, demoData]

/-- Witness for C10 at a non-ok response over the initial UI with all random
draws zero. -/
theorem cv_analysis_fallback_witness :
    performCVAnalysisStep initialScannerUI (fun _ => 0) FetchOutcome.notOk =
      updateCVUI initialScannerUI (demoData (fun _ => 0)) ∧
    (performCVAnalysisStep initialScannerUI (fun _ => 0) FetchOutcome.notOk).confidenceText =
      "88%" :=
  ⟨(cv_analysis_fallback initialScannerUI (fun _ => 0) FetchOutcome.notOk (Or.inl rfl)).1,
    (cv_analysis_fallback initialScannerUI (fun _ => 0) FetchOutcome.notOk
      (Or.inl rfl)).2.2.2.2.2.2⟩

end BurnoutGuardian
